import Mathlib

/-!
Verification development for the formbricks-nuerona CLI seeding core.

This file gives a shallow embedding, in Lean 4, of the data generator
(src/formbricks_cli/data_generator.py), the API seeder
(src/formbricks_cli/api_seeder.py) and the seed command
(src/formbricks_cli/commands.py), and proves or refutes the frozen
specification claims about them.

Modelling conventions:
- Python dicts become structures; keys that the source may leave absent
  become Option fields.
- The random module is modelled by an explicit stream of natural-number
  draws (`Rng`): each call of randint / choice / choices / shuffle consumes
  draws from the stream in program order.  randint lo hi yields
  lo + draw % (hi + 1 - lo) and raises (Except.error) when hi < lo,
  matching CPython semantics.  random.choice of an empty sequence raises.
  random.shuffle is modelled as a draw-directed selection permutation
  (selection form of Fisher-Yates); the only property the source relies
  on is that the result is a permutation of the input.
- HTTP traffic is modelled by an oracle from the index of the HTTP request
  (in program order) to its outcome; a transport exception is an explicit
  outcome constructor.  Functions that make requests additionally return
  the number of requests performed so that "no attempt was made" is a
  provable statement.
-/

namespace Formbricks

/-! ## Random stream model -/

/-- A stream of random draws together with the position of the next draw. -/
structure Rng where
  stream : Nat → Nat
  pos : Nat

/-- Consume one draw from the stream. -/
def Rng.next (r : Rng) : Nat × Rng :=
  (r.stream r.pos, { r with pos := r.pos + 1 })

/-- Model of random.randint lo hi: a uniform draw in [lo, hi]; CPython raises
ValueError when hi < lo (empty range). -/
def randint (r : Rng) (lo hi : Nat) : Except String (Nat × Rng) :=
  if hi < lo then Except.error "ValueError: empty range in randrange" else
  let (v, r1) := r.next
  Except.ok (lo + v % (hi + 1 - lo), r1)

/-- Truthiness of an optional string, as Python sees it: None and the empty
string are falsy. -/
def isFalsyStr : Option String → Bool
  | none => true
  | some s => s = ""

/-! ## Data generator: data model (src/formbricks_cli/data_generator.py) -/

/-- A generated question dict.  Fields that only some question types carry
are Option / optional-list fields (absent key = none). -/
structure Question where
  qtype : String
  headline : String
  required : Bool
  range : Option Nat := none
  labelLeft : Option String := none
  labelRight : Option String := none
  choices : Option (List String) := none
  placeholder : Option String := none
  qid : Option String := none
deriving Repr, DecidableEq

/-- A generated survey dict (mock path of the generator). -/
structure Survey where
  name : String
  stype : String := "link"
  questions : List Question
  thankHeadline : String := ""
  thankSubheader : String := ""
  id : Option String := none
  createdDaysAgo : Option Nat := none
  status : Option String := none
deriving Repr, DecidableEq

/-- A generated user dict; only the id field is read by the code under
verification (generate_responses attributes responses by user id). -/
structure User where
  id : String
deriving Repr, DecidableEq

/-- A generated response dict, including the outcome fields that
submit_responses assigns (absent before submission, hence Option). -/
structure Response where
  id : String := ""
  survey_id : Option String := none
  user_id : Option String := none
  createdHoursAgo : Option Nat := none
  rdata : List (String × String) := []
  ttc : Option Nat := none
  api_success : Option Bool := none
  submitted : Option Bool := none
  api_survey_id : Option String := none
  endpoint_used : Option String := none
  mapped_from : Option String := none
deriving Repr, DecidableEq

/-! ## Data generator: survey generation -/

/-- The fixed survey archetypes (name, context) of generate_surveys. -/
def survey_types : List (String × String) :=
  [("Customer Satisfaction Survey", "customer feedback about services"),
   ("Employee Engagement Survey", "employee satisfaction and workplace feedback"),
   ("Product Feedback Survey", "user feedback about a software product"),
   ("Market Research Survey", "consumer preferences and market trends"),
   ("Website Usability Survey", "user experience on a website")]

/-- Rating question templates of _generate_mock_survey. -/
def rating_templates : List Question :=
  [{ qtype := "rating", headline := "How satisfied are you with our service?",
     required := true, range := some 5,
     labelLeft := some "Very Dissatisfied", labelRight := some "Very Satisfied" },
   { qtype := "rating", headline := "How likely are you to recommend us to others?",
     required := true, range := some 10,
     labelLeft := some "Not at all likely", labelRight := some "Extremely likely" },
   { qtype := "rating", headline := "Rate the quality of our product",
     required := true, range := some 7,
     labelLeft := some "Poor", labelRight := some "Excellent" }]

/-- Multiple-choice question templates of _generate_mock_survey. -/
def multipleChoice_templates : List Question :=
  [{ qtype := "multipleChoice", headline := "Which features do you use most often?",
     required := false, choices := some ["Feature A", "Feature B", "Feature C", "Feature D"] },
   { qtype := "multipleChoice", headline := "How did you hear about us?",
     required := false,
     choices := some ["Social Media", "Search Engine", "Friend/Colleague", "Advertisement", "Other"] },
   { qtype := "multipleChoice", headline := "What is your primary role?",
     required := true,
     choices := some ["Individual Contributor", "Manager", "Director", "Executive"] }]

/-- Open-text question templates of _generate_mock_survey. -/
def openText_templates : List Question :=
  [{ qtype := "openText", headline := "What do you like most about our service?",
     required := false, placeholder := some "Your thoughts..." },
   { qtype := "openText", headline := "What can we improve?",
     required := false, placeholder := some "Your suggestions..." },
   { qtype := "openText", headline := "Additional comments or feedback?",
     required := false, placeholder := some "Any other feedback..." }]

/-- The question-type table used for the weighted type draw. -/
def question_type_names : List String := ["rating", "multipleChoice", "openText"]

/-- Template table lookup question_templates[q_type]. -/
def question_templates_for (t : String) : List Question :=
  if t = "rating" then rating_templates
  else if t = "multipleChoice" then multipleChoice_templates
  else openText_templates

/-- Fallback question value for total list indexing; the index used is
always in range so this value is never produced. -/
def dummyQuestion : Question :=
  { qtype := "openText", headline := "", required := false }

/-- One iteration of the question loop of _generate_mock_survey: one draw
selects the question type (random.choices with weights: the weights affect
the distribution, not the support, so the draw picks the index), one draw
selects the template (random.choice), then the id q(i+1) is assigned. -/
def make_question (r : Rng) (i : Nat) : Question × Rng :=
  let (tv, r1) := r.next
  let qt := question_type_names.getD (tv % question_type_names.length) "openText"
  let tmpl := question_templates_for qt
  let (cv, r2) := r1.next
  let q := tmpl.getD (cv % tmpl.length) dummyQuestion
  ({ q with qid := some ("q" ++ toString (i + 1)) }, r2)

/-- The question loop of _generate_mock_survey, building questions for
indices i, i+1, ... (count many). -/
def make_questions (r : Rng) : Nat → Nat → List Question × Rng
  | _, 0 => ([], r)
  | i, n + 1 =>
    let (q, r1) := make_question r i
    let (qs, r2) := make_questions r1 (i + 1) n
    (q :: qs, r2)

/-- The thank-you message table of _generate_mock_survey. -/
def thank_you_messages : List (String × String) :=
  [("Thank You!", "Your feedback helps us improve."),
   ("Survey Complete", "We appreciate you taking the time."),
   ("Thanks for your feedback!", "Your responses are valuable to us.")]

/-- DataGenerator._generate_mock_survey: draw 3-5 questions, then draw a
thank-you message.  The context string only feeds the LLM path and is
unused on the mock path. -/
def generate_mock_survey (name : String) (r : Rng) : Survey × Rng :=
  let (nv, r1) := r.next
  let nq := 3 + nv % 3
  let (qs, r2) := make_questions r1 0 nq
  let (tv, r3) := r2.next
  let thank := thank_you_messages.getD (tv % thank_you_messages.length) ("", "")
  ({ name := name, stype := "link", questions := qs,
     thankHeadline := thank.1, thankSubheader := thank.2 }, r3)

/-- The survey loop of generate_surveys: the i-th survey (0-based i) takes
the i-th archetype, is generated on the mock path (no OpenAI key), and then
receives id survey_(i+1), a created_at offset draw randint(1, 30) and
status inProgress. -/
def generate_surveys_loop (r : Rng) : Nat → Nat → List Survey × Rng
  | _, 0 => ([], r)
  | i, n + 1 =>
    let nm := (survey_types.getD i ("", "")).1
    let (sv, r1) := generate_mock_survey nm r
    let (dv, r2) := r1.next
    let sv2 := { sv with id := some ("survey_" ++ toString (i + 1)),
                         createdDaysAgo := some (1 + dv % 30),
                         status := some "inProgress" }
    let (rest, r3) := generate_surveys_loop r2 (i + 1) n
    (sv2 :: rest, r3)

/-- DataGenerator.generate_surveys (mock path): the count is capped at the
number of fixed archetypes (five). -/
def generate_surveys (count : Nat) (r : Rng) : List Survey × Rng :=
  generate_surveys_loop r 0 (min count survey_types.length)

/-! ## Data generator: response generation -/

/-- Model of random.shuffle: a draw-directed permutation of the input.
Each round consumes one draw, selects the element at position
draw % remaining-length, and removes it; the fuel argument starts at the
list length.  The seeding code relies only on the result being a
permutation of the input (proved below as shuffle_perm). -/
def shuffle_go (r : Rng) : Nat → List α → List α × Rng
  | 0, _ => ([], r)
  | _ + 1, [] => ([], r)
  | n + 1, a :: as =>
    let (v, r1) := r.next
    let j := v % (a :: as).length
    let x := (a :: as).getD j a
    let (rest, r2) := shuffle_go r1 n ((a :: as).eraseIdx j)
    (x :: rest, r2)

/-- Model of random.shuffle on a copied list (users.copy() then shuffle). -/
def shuffle (r : Rng) (l : List α) : List α × Rng :=
  shuffle_go r l.length l

/-- The canned open-text answer table of _generate_mock_response. -/
def canned_text_answers : List String :=
  ["Great service, very satisfied with the overall experience.",
   "Could use some improvement in response time, but generally good.",
   "Excellent product, easy to use and intuitive interface.",
   "The interface could be more intuitive, but functionality is solid.",
   "Very helpful customer support team, very responsive.",
   "Some features are missing that would be really useful.",
   "Overall good experience, would recommend to colleagues.",
   "The product meets our needs effectively, good value for money.",
   "There is a learning curve but once you get used to it, it is powerful.",
   "Reliable service with good uptime and performance."]

/-- One question's answer in _generate_mock_response.  A rating question of
range 5 uses a weighted choice over the five scores (one draw); any other
range uses randint(1, range), which raises when range is 0.  A
multiple-choice question uses random.choice over its choices (default
[Option A, Option B] when the key is absent), which raises on an empty
list.  Open text uses random.choice over the canned table. -/
def mock_answer (q : Question) (r : Rng) : Except String (String × Rng) :=
  if q.qtype = "rating" then
    let maxRange := q.range.getD 5
    if maxRange = 5 then
      let (v, r1) := r.next
      Except.ok (toString ([1, 2, 3, 4, 5].getD (v % 5) 5), r1)
    else
      match randint r 1 maxRange with
      | Except.error e => Except.error e
      | Except.ok (n, r1) => Except.ok (toString n, r1)
  else if q.qtype = "multipleChoice" then
    let cs := q.choices.getD ["Option A", "Option B"]
    if cs.isEmpty then Except.error "IndexError: choice from empty sequence"
    else
      let (v, r1) := r.next
      Except.ok (cs.getD (v % cs.length) "", r1)
  else
    let (v, r1) := r.next
    Except.ok (canned_text_answers.getD (v % canned_text_answers.length) "", r1)

/-- The question loop of _generate_mock_response: the answer map is built
keyed by the question id (default q(i+1) when absent). -/
def generate_mock_response (qs : List Question) (i : Nat) (r : Rng) :
    Except String (List (String × String) × Rng) :=
  match qs with
  | [] => Except.ok ([], r)
  | q :: rest =>
    let key := q.qid.getD ("q" ++ toString (i + 1))
    match mock_answer q r with
    | Except.error e => Except.error e
    | Except.ok (a, r1) =>
      match generate_mock_response rest (i + 1) r1 with
      | Except.error e => Except.error e
      | Except.ok (tl, r2) => Except.ok ((key, a) :: tl, r2)

/-- The inner loop of generate_responses for one survey: for index i below
num, stop early if i reaches the end of the shuffled user list (the
break), otherwise generate mock answer data, then the created_at offset
draw randint(1, 168) and the ttc draw randint(30, 300). -/
def responses_for_survey (s : Survey) (avail : List User) (r : Rng) :
    Nat → Nat → Nat → Except String (List Response × Nat × Rng)
  | _, rid, 0 => Except.ok ([], rid, r)
  | i, rid, n + 1 =>
    match avail[i]? with
    | none => Except.ok ([], rid, r)
    | some u =>
      match generate_mock_response s.questions 0 r with
      | Except.error e => Except.error e
      | Except.ok (d, r1) =>
        let (cv, r2) := r1.next
        let (tv, r3) := r2.next
        let resp : Response :=
          { id := "response_" ++ toString rid, survey_id := s.id,
            user_id := some u.id, createdHoursAgo := some (1 + cv % 168),
            rdata := d, ttc := some (30 + tv % 271) }
        match responses_for_survey s avail r3 (i + 1) (rid + 1) n with
        | Except.error e => Except.error e
        | Except.ok (rest, rid2, r4) => Except.ok (resp :: rest, rid2, r4)

/-- The outer loop of generate_responses: per survey, shuffle a copy of the
user list, draw num = randint(1, min(3, number of users)) — which raises
when the user list is empty — then run the inner loop. -/
def generate_responses_go (users : List User) :
    List Survey → Nat → Rng → Except String (List Response × Nat × Rng)
  | [], rid, r => Except.ok ([], rid, r)
  | s :: rest, rid, r =>
    let (avail, r1) := shuffle r users
    match randint r1 1 (min 3 avail.length) with
    | Except.error e => Except.error e
    | Except.ok (num, r2) =>
      match responses_for_survey s avail r2 0 rid num with
      | Except.error e => Except.error e
      | Except.ok (block, rid2, r3) =>
        match generate_responses_go users rest rid2 r3 with
        | Except.error e => Except.error e
        | Except.ok (tail, rid3, r4) => Except.ok (block ++ tail, rid3, r4)

/-- DataGenerator.generate_responses (mock path): response ids are numbered
from 1 across all surveys. -/
def generate_responses (surveys : List Survey) (users : List User) (r : Rng) :
    Except String (List Response) :=
  match generate_responses_go users surveys 1 r with
  | Except.error e => Except.error e
  | Except.ok (out, _, _) => Except.ok out

/-! ## API seeder: environment discovery and construction
(src/formbricks_cli/api_seeder.py) -/

/-- The hardcoded fallback environment id of _get_environment_id. -/
def hardcoded_environment_id : String := "cmjmioo9e0004l801j2yksppg"

/-- APISeeder._get_environment_id: the configured value
(FORMBRICKS_ENVIRONMENT_ID) when truthy, otherwise the hardcoded fallback
constant.  The function performs no HTTP request and always returns a
value. -/
def get_environment_id (cfg : Option String) : Option String :=
  match cfg with
  | some e => if e = "" then some hardcoded_environment_id else some e
  | none => some hardcoded_environment_id

/-- The constructed APISeeder state. -/
structure Seeder where
  base_url : String
  api_key : String
  environment_id : Option String
deriving Repr, DecidableEq

/-- The configuration inputs of APISeeder.__init__: the two constructor
arguments and the three environment variables it reads. -/
structure SeederCfg where
  baseUrlArg : Option String := none
  apiKeyArg : Option String := none
  envUrl : Option String := none
  envApiKey : Option String := none
  envEnvironmentId : Option String := none
deriving Repr, DecidableEq

/-- Python x or y for optional strings: the first truthy value, else y. -/
def orTruthy (x y : Option String) : Option String :=
  if isFalsyStr x then y else x

/-- APISeeder.__init__: base_url defaults through FORMBRICKS_URL to
localhost; a falsy api_key (argument and FORMBRICKS_API_KEY both absent or
empty) raises ValueError before anything else happens; otherwise the
environment id is resolved by get_environment_id. -/
def seeder_init (cfg : SeederCfg) : Except String Seeder :=
  let baseUrl := orTruthy cfg.baseUrlArg
    (some ((orTruthy cfg.envUrl (some "http://localhost:3000")).getD ""))
  let apiKey := orTruthy cfg.apiKeyArg cfg.envApiKey
  if isFalsyStr apiKey then
    Except.error "FORMBRICKS_API_KEY environment variable is required"
  else
    Except.ok { base_url := baseUrl.getD "", api_key := apiKey.getD "",
                environment_id := get_environment_id cfg.envEnvironmentId }

/-! ## API seeder: survey creation -/

/-- A question converted to the Formbricks API schema by the conversion
loop of create_surveys (lines 118-170). -/
structure FQuestion where
  id : String
  qtype : String
  headline : String
  required : Bool
  isDraft : Bool := false
  scale : Option String := none
  range : Option Nat := none
  labelLeft : Option String := none
  labelRight : Option String := none
  labelCenter : Option String := none
  choices : List (String × String) := []
  multiSelect : Option Bool := none
  shuffleOption : Option String := none
  placeholder : Option String := none
  longAnswer : Option Bool := none
  inputType : Option String := none
deriving Repr, DecidableEq

/-- Choice formatting for multipleChoice questions: id choice_(i+1) plus
the stringified label. -/
def format_choices (cs : List String) : List (String × String) :=
  (List.range cs.length).zip cs |>.map (fun p => ("choice_" ++ toString (p.1 + 1), p.2))

/-- The per-question conversion of create_surveys: defaults for absent
keys, type-specific fields, and the multipleChoice → multipleChoiceMulti
rename.  idx is the 1-based position used for the fallback id. -/
def convert_question (idx : Nat) (q : Question) : FQuestion :=
  let base : FQuestion :=
    { id := q.qid.getD ("question" ++ toString idx), qtype := q.qtype,
      headline := q.headline, required := q.required, isDraft := false }
  if q.qtype = "rating" then
    { base with
      scale := some "number", range := some (q.range.getD 5),
      labelLeft := some (q.labelLeft.getD "Poor"),
      labelRight := some (q.labelRight.getD "Excellent"),
      labelCenter := some "" }
  else if q.qtype = "multipleChoice" then
    { base with
      qtype := "multipleChoiceMulti",
      choices := format_choices (q.choices.getD ["Option 1", "Option 2"]),
      multiSelect := some false, shuffleOption := some "none" }
  else if q.qtype = "openText" then
    { base with
      placeholder := some (q.placeholder.getD ""),
      longAnswer := some false, inputType := some "text" }
  else base

/-- The question conversion loop, enumerated from 1. -/
def convert_questions_from : Nat → List Question → List FQuestion
  | _, [] => []
  | i, q :: rest => convert_question i q :: convert_questions_from (i + 1) rest

/-- All questions of a survey converted to the API schema. -/
def convert_questions (qs : List Question) : List FQuestion :=
  convert_questions_from 1 qs

/-- Outcome of one create-survey POST: an HTTP response with a status and
the optional id under data.id in the body, or a raised transport
exception. -/
inductive CreateResult where
  | resp (status : Nat) (dataId : Option String)
  | exn (msg : String)
deriving Repr, DecidableEq

/-- One record of the created_surveys list returned by create_surveys. -/
structure SurveyEntry where
  id : String := ""
  name : String := ""
  api_success : Bool := false
  questions : List FQuestion := []
  survey_id : Option String := none
  generated_id : Option String := none
  position : Option Nat := none
  error : Option String := none
  note : Option String := none
deriving Repr, DecidableEq

/-- Fallback entry value for total list indexing in statements. -/
def noEntry : SurveyEntry := {}

/-- Fallback response value for total list indexing in statements. -/
def noResponse : Response := {}

/-- The record appended for the survey at 1-based position i
(enumerate(surveys_data, 1)) by one iteration of the main loop of
create_surveys, as a function of the outcome of that iteration's single
POST: a success record when the status is 200 or 201 (with the body id,
defaulting to survey_(number of prior records)), a mock_survey_ failure
record on any other status, and an error_survey_ failure record when the
POST raises.  Because every iteration appends exactly one record, the
number of prior records equals i - 1. -/
def create_survey_entry (sd : Survey) (i : Nat) : CreateResult → SurveyEntry
  | CreateResult.resp status dataId =>
    if status = 200 || status = 201 then
      let actualId := dataId.getD ("survey_" ++ toString (i - 1))
      { id := actualId, name := sd.name, api_success := true,
        questions := convert_questions sd.questions, survey_id := some actualId,
        generated_id := some ("survey_" ++ toString i), position := some i }
    else
      { id := "mock_survey_" ++ toString (i - 1), name := sd.name,
        api_success := false, error := some ("HTTP " ++ toString status),
        generated_id := some ("survey_" ++ toString i), position := some i }
  | CreateResult.exn msg =>
    { id := "error_survey_" ++ toString (i - 1), name := sd.name,
      api_success := false, error := some msg,
      generated_id := some ("survey_" ++ toString i), position := some i }

/-- The main loop of create_surveys: each iteration performs exactly one
POST (c is the index of the next HTTP request in program order) and
appends exactly one record, built by create_survey_entry from the
outcome. -/
def create_surveys_loop (api : Nat → CreateResult) :
    List Survey → Nat → Nat → List SurveyEntry × Nat
  | [], _, c => ([], c)
  | sd :: rest, i, c =>
    let entry := create_survey_entry sd i (api c)
    let (restEntries, c2) := create_surveys_loop api rest (i + 1) (c + 1)
    (entry :: restEntries, c2)

/-- APISeeder._create_mock_surveys: one failure record per input survey,
enumerated from 0, with 1-based generated id and position. -/
def create_mock_surveys (surveys : List Survey) : List SurveyEntry :=
  (List.range surveys.length).zip surveys |>.map (fun p =>
    { id := "mock_survey_" ++ toString p.1, name := p.2.name,
      api_success := false, note := some "Mock survey - API failed",
      generated_id := some ("survey_" ++ toString (p.1 + 1)),
      position := some (p.1 + 1) })

/-- APISeeder.create_surveys: with a falsy environment id the whole batch
degrades to mock records and no request is made; otherwise the main loop
runs.  The second component is the number of HTTP requests performed. -/
def create_surveys (envId : Option String) (surveys : List Survey)
    (api : Nat → CreateResult) : List SurveyEntry × Nat :=
  if isFalsyStr envId then (create_mock_surveys surveys, 0)
  else create_surveys_loop api surveys 1 0

/-! ## API seeder: response submission -/

/-- Outcome of one response-submission POST: an HTTP response with a
status, or a raised transport exception. -/
inductive ApiResult where
  | resp (status : Nat)
  | exn (msg : String)
deriving Repr, DecidableEq

/-- Whether a submission outcome is an accepted HTTP response: the source
accepts exactly the statuses 200 and 201. -/
def acceptedR : ApiResult → Bool
  | ApiResult.resp s => s = 200 || s = 201
  | ApiResult.exn _ => false

/-- Whether a submission outcome is an HTTP response at all (no raised
transport exception). -/
def isRespR : ApiResult → Bool
  | ApiResult.resp _ => true
  | ApiResult.exn _ => false

/-- A 2xx HTTP status in the usual sense, as the specification words use
the term. -/
def is2xxStatus (s : Nat) : Bool :=
  200 ≤ s && s < 300

/-- Insert into the model of a Python dict (association list with unique
keys): a later assignment to an existing key overwrites it. -/
def insertAssoc (m : List (String × SurveyEntry)) (k : String) (v : SurveyEntry) :
    List (String × SurveyEntry) :=
  if m.any (fun p => p.1 = k) then
    m.map (fun p => if p.1 = k then (k, v) else p)
  else m ++ [(k, v)]

/-- Dict lookup. -/
def lookupAssoc (m : List (String × SurveyEntry)) (k : String) : Option SurveyEntry :=
  (m.find? (fun p => p.1 = k)).map (fun p => p.2)

/-- One step of the mapping construction of submit_responses (lines
301-310): key by the truthy generated_id, else by survey_(position) when
the position is truthy (present and nonzero). -/
def mapping_step (m : List (String × SurveyEntry)) (s : SurveyEntry) :
    List (String × SurveyEntry) :=
  if isFalsyStr s.generated_id = false then
    insertAssoc m (s.generated_id.getD "") s
  else
    match s.position with
    | some p => if p = 0 then m else insertAssoc m ("survey_" ++ toString p) s
    | none => m

/-- The survey_mapping dict built from the API-created surveys. -/
def build_mapping (apiSurveys : List SurveyEntry) : List (String × SurveyEntry) :=
  apiSurveys.foldl mapping_step []

/-- Whether one character list is a prefix of another (the model of
str.startswith, on character lists so that the kernel can evaluate it). -/
def listStartsWith : List Char → List Char → Bool
  | [], _ => true
  | _ :: _, [] => false
  | p :: ps, c :: cs => p = c && listStartsWith ps cs

/-- Model of Python str.split(sep) for a one-character separator: every
occurrence splits, empty pieces are preserved. -/
def splitOnChar (sep : Char) : List Char → List (List Char)
  | [] => [[]]
  | c :: rest =>
    if c = sep then [] :: splitOnChar sep rest
    else
      match splitOnChar sep rest with
      | [] => [[c]]
      | g :: gs => (c :: g) :: gs

/-- Digit-string accumulator for the int() model. -/
def digitsToNatAux : List Char → Nat → Option Nat
  | [], acc => some acc
  | c :: rest, acc =>
    if c.isDigit then
      digitsToNatAux rest (acc * 10 + (c.toNat - Char.toNat '0'))
    else none

/-- Model of Python int() on the split piece: a nonempty all-digit string
parses to its value, anything else raises (none; the generated references
carry plain digits there, so the sign and whitespace forms int() also
accepts do not arise). -/
def digitsToNat? (cs : List Char) : Option Nat :=
  if cs.isEmpty then none else digitsToNatAux cs 0

/-- The position-fallback parse (lines 334-343): for a reference starting
with survey_ the source takes the piece after the first underscore
(split("_")[1], which exists because the reference contains an
underscore) and parses it as an integer; a parse failure is swallowed by
the bare except (the none branches). -/
def parse_position_ref (s : String) : Option Nat :=
  if listStartsWith "survey_".toList s.toList then
    match (splitOnChar '_' s.toList).get? 1 with
    | some t => digitsToNat? t
    | none => none
  else none

/-- Resolution of a response's survey reference (lines 319-351): a falsy
reference resolves to nothing; otherwise the mapping is consulted by exact
key, and on a miss the position fallback searches the API-created surveys
for a matching position. -/
def resolve_survey (mapping : List (String × SurveyEntry))
    (apiSurveys : List SurveyEntry) (sid : Option String) : Option SurveyEntry :=
  if isFalsyStr sid then none
  else
    let s := sid.getD ""
    match lookupAssoc mapping s with
    | some e => some e
    | none =>
      match parse_position_ref s with
      | some n => apiSurveys.find? (fun sv => sv.position = some n)
      | none => none

/-- The usable remote id of a mapped survey (line 353 and the check at
356): survey_id when truthy, else id; nothing when both are falsy. -/
def actual_survey_id (e : SurveyEntry) : Option String :=
  let v := if isFalsyStr e.survey_id = false then e.survey_id.getD "" else e.id
  if v = "" then none else some v

/-- The two submission endpoints tried in order (lines 377-380). -/
def submission_endpoints (base : String) : List String :=
  [base ++ "/api/v1/client/responses", base ++ "/api/v1/responses"]

/-- The endpoint loop of submit_responses (lines 382-433).  Per endpoint:
one POST with the primary payload; acceptance (status 200 or 201) returns
that endpoint's label; a raised exception abandons the endpoint (the alt
shape is not tried there); any other status triggers one POST with the
alternative payload, whose acceptance returns the label with the
alt-format suffix; otherwise the next endpoint is tried.  c is the index
of the next HTTP request; the returned counter counts every POST made. -/
def submit_loop (api : Nat → ApiResult) : List String → Nat → Option String × Nat
  | [], c => (none, c)
  | e :: rest, c =>
    match api c with
    | ApiResult.exn _ => submit_loop api rest (c + 1)
    | ApiResult.resp s =>
      if s = 200 || s = 201 then (some e, c + 1)
      else
        match api (c + 1) with
        | ApiResult.exn _ => submit_loop api rest (c + 2)
        | ApiResult.resp s2 =>
          if s2 = 200 || s2 = 201 then (some (e ++ " (alt format)"), c + 2)
          else submit_loop api rest (c + 2)

/-- The failure marking applied to a response record that is skipped or
whose submission fails: the source assigns api_success = False and
submitted = False on the record itself. -/
def markUnsubmitted (r : Response) : Response :=
  { r with api_success := some false, submitted := some false }

/-- The per-response body of the submission loop (lines 317-440): resolve
the reference, find a usable remote id, build the payload and run the
endpoint loop; on acceptance the outcome fields are assigned on the
record, otherwise it is marked unsubmitted.  In every case the record is
appended exactly once.  The assignments happen in place on the input dict
in the source; the returned record is that same object after mutation. -/
def process_response (base : String) (apiSurveys : List SurveyEntry)
    (mapping : List (String × SurveyEntry)) (api : Nat → ApiResult)
    (c : Nat) (r : Response) : Response × Nat :=
  match resolve_survey mapping apiSurveys r.survey_id with
  | none => (markUnsubmitted r, c)
  | some e =>
    match actual_survey_id e with
    | none => (markUnsubmitted r, c)
    | some sid =>
      match submit_loop api (submission_endpoints base) c with
      | (some lbl, c2) =>
        ({ r with api_success := some true, submitted := some true,
                  api_survey_id := some sid, endpoint_used := some lbl,
                  mapped_from := r.survey_id }, c2)
      | (none, c2) => (markUnsubmitted r, c2)

/-- The response loop of submit_responses. -/
def submit_responses_go (base : String) (apiSurveys : List SurveyEntry)
    (mapping : List (String × SurveyEntry)) (api : Nat → ApiResult) :
    List Response → Nat → List Response × Nat
  | [], c => ([], c)
  | r :: rest, c =>
    let (r2, c2) := process_response base apiSurveys mapping api c r
    let (rs, c3) := submit_responses_go base apiSurveys mapping api rest c2
    (r2 :: rs, c3)

/-- APISeeder.submit_responses: filter the successfully created surveys;
with none, every response is marked unsubmitted and returned with no HTTP
request at all (lines 285-295); otherwise the mapping is built and the
response loop runs.  The second component is the number of HTTP requests
performed. -/
def submit_responses (base : String) (created : List SurveyEntry)
    (responses : List Response) (api : Nat → ApiResult) : List Response × Nat :=
  let apiSurveys := created.filter (fun s => s.api_success)
  if apiSurveys.isEmpty then (responses.map markUnsubmitted, 0)
  else submit_responses_go base apiSurveys (build_mapping apiSurveys) api responses 0

/-- The state of the input response records after submit_responses
returns.  The source assigns the outcome fields directly on the input
dicts (lines 291-292, 324-325, 348-349, 359-360, 392-396, 419-423,
437-438) and appends those same objects to the returned list, so the input
records after the call are exactly the returned records — no copies are
made. -/
def inputs_after_submit (base : String) (created : List SurveyEntry)
    (responses : List Response) (api : Nat → ApiResult) : List Response :=
  (submit_responses base created responses api).1

/-- A response record with the fields that submit_responses may assign
reset; what remains is the data the submission step never touches. -/
def stripOutcome (r : Response) : Response :=
  { r with api_success := none, submitted := none, api_survey_id := none,
           endpoint_used := none, mapped_from := none }

/-! ## Seed command (src/formbricks_cli/commands.py, lines 180-264) -/

/-- The results artifact written by seed_command to
seed_results/api_results.json. -/
structure SeedResults where
  api_available : Bool
  surveys_generated : Nat
  users_generated : Nat
  responses_generated : Nat
  surveys_created_via_api : Nat
  responses_submitted_via_api : Nat
deriving Repr, DecidableEq

/-- The seeding stage of seed_command, from seeder construction onward.
A constructor failure (missing API key) is caught and only flips
api_available to false; connOk models the test_connection probe.  When the
API is unavailable the command still builds the simulated results
artifact; otherwise it runs create_surveys, create_users (a pure
pass-through annotation whose output is unused downstream, not modelled)
and submit_responses, and counts the successes.  The first component is
the produced results artifact (the function never aborts without one); the
second component records whether the seeding operations (survey creation
and response submission) were invoked at all. -/
def seed_command_stage (cfg : SeederCfg) (connOk : Bool)
    (surveys : List Survey) (users : List User) (responses : List Response)
    (capi : Nat → CreateResult) (sapi : Nat → ApiResult) :
    Option SeedResults × Bool :=
  let degraded : SeedResults :=
    { api_available := false, surveys_generated := surveys.length,
      users_generated := users.length, responses_generated := responses.length,
      surveys_created_via_api := 0, responses_submitted_via_api := 0 }
  match seeder_init cfg with
  | Except.error _ => (some degraded, false)
  | Except.ok seeder =>
    if connOk = false then (some degraded, false)
    else
      let created := (create_surveys seeder.environment_id surveys capi).1
      let submitted := (submit_responses seeder.base_url created responses sapi).1
      (some { api_available := true, surveys_generated := surveys.length,
              users_generated := users.length,
              responses_generated := responses.length,
              surveys_created_via_api :=
                (created.filter (fun s => s.api_success)).length,
              responses_submitted_via_api :=
                (submitted.filter (fun r => r.submitted = some true)).length },
       true)

/-! ## Auxiliary predicates for the statements -/

/-- Whether a create-survey outcome is accepted by the source: exactly the
statuses 200 and 201. -/
def acceptedC : CreateResult → Bool
  | CreateResult.resp s _ => s = 200 || s = 201
  | CreateResult.exn _ => false

/-- Fallback survey value for total list indexing in statements. -/
def noSurvey : Survey := { name := "", questions := [] }

/-- Whether _generate_mock_response can answer a question without raising:
a rating question needs a positive range (randint(1, 0) raises) and a
multiple-choice question needs a nonempty choice list (random.choice of an
empty sequence raises).  Every question the mock generator itself produces
satisfies this. -/
def question_answerable (q : Question) : Bool :=
  (if q.qtype = "rating" then decide (1 ≤ q.range.getD 5) else true) &&
  (if q.qtype = "multipleChoice" then
    !(q.choices.getD ["Option A", "Option B"]).isEmpty else true)

/-- Sample mapping entry of a successfully created survey, used by the
witnesses below. -/
def sampleEntry : SurveyEntry :=
  { id := "RID", name := "A", api_success := true, survey_id := some "RID",
    generated_id := some "survey_1", position := some 1 }

/-- Sample mapping entry of a failed creation, used by the witnesses
below. -/
def sampleFailedEntry : SurveyEntry :=
  { id := "mock_survey_0", name := "A", api_success := false,
    generated_id := some "survey_1", position := some 1,
    error := some "HTTP 400" }

/-- Sample input response referencing the first generated survey, used by
the witnesses below. -/
def sampleResponse : Response :=
  { id := "response_1", survey_id := some "survey_1" }

/-- Sample generated survey with one answerable question, used by the
witnesses below. -/
def sampleSurvey : Survey :=
  { name := "S", id := some "survey_1",
    questions := [{ qtype := "openText", headline := "h", required := false,
                    qid := some "q1" }] }

/-- Sample generated user, used by the witnesses below. -/
def sampleUser : User := { id := "user_1" }

/-- The all-zero random stream, used by the witnesses below. -/
def zeroRng : Rng := { stream := fun _ => 0, pos := 0 }

/-! ## Behaviour of the create-surveys loop -/

/-- Each iteration of the create-surveys loop performs one POST and
appends one record; the k-th record is determined by the k-th input survey
and the k-th POST outcome. -/
theorem create_surveys_loop_spec (api : Nat → CreateResult) :
    ∀ (surveys : List Survey) (i c : Nat),
      (create_surveys_loop api surveys i c).1.length = surveys.length ∧
      (create_surveys_loop api surveys i c).2 = c + surveys.length ∧
      ∀ k, k < surveys.length →
        (create_surveys_loop api surveys i c).1.getD k noEntry =
          create_survey_entry (surveys.getD k noSurvey) (i + k) (api (c + k))
  | [], i, c => by simp [create_surveys_loop]
  | sd :: rest, i, c => by
    obtain ⟨h1, h2, h3⟩ := create_surveys_loop_spec api rest (i + 1) (c + 1)
    cases hrec : create_surveys_loop api rest (i + 1) (c + 1) with
    | mk es c2 =>
      rw [hrec] at h1 h2 h3
      refine ⟨by simp [create_surveys_loop, hrec, h1],
              by simp [create_surveys_loop, hrec]; omega, ?_⟩
      intro k hk
      cases k with
      | zero => simp [create_surveys_loop, hrec]
      | succ k =>
        have hk2 : k < rest.length := by simpa using hk
        have hk3 := h3 k hk2
        simp only [create_surveys_loop, hrec, List.getD_cons_succ]
        rw [hk3]
        have e1 : i + 1 + k = i + (k + 1) := by omega
        have e2 : c + 1 + k = c + (k + 1) := by omega
        rw [e1, e2]

/-! ## Claim C1 -/

/-- Claim C1, counterexample.  The claim states that a mapping entry's
api_success flag is true iff the create call was accepted with a 2xx
status.  Status 202 is a 2xx status, yet the source accepts only 200 and
201 (line 204), so a create call answered with 202 yields a failure entry:
the claim is false as stated. -/
theorem create_surveys_202_counterexample :
    is2xxStatus 202 = true ∧
    ((create_surveys (some "env") [noSurvey]
        (fun _ => CreateResult.resp 202 none)).1.getD 0 noEntry).api_success = false := by
  decide

/-- Claim C1 (amended: acceptance means status 200 or 201, not any 2xx).
For every list of N input surveys and every truthy environment id,
create_surveys returns exactly N mapping entries, one per input survey in
input order (the k-th entry carries the k-th survey's name and generated
id), where the k-th entry carries 1-based position k + 1 and api_success
is true iff the k-th create call returned status 200 or 201 — whether the
call succeeds, is rejected with another status, or raises a transport
exception. -/
theorem create_surveys_mapping_entries (envId : Option String)
    (surveys : List Survey) (api : Nat → CreateResult)
    (h : isFalsyStr envId = false) :
    (create_surveys envId surveys api).1.length = surveys.length ∧
    ∀ k, k < surveys.length →
      ((create_surveys envId surveys api).1.getD k noEntry).position = some (k + 1) ∧
      ((create_surveys envId surveys api).1.getD k noEntry).generated_id
        = some ("survey_" ++ toString (k + 1)) ∧
      ((create_surveys envId surveys api).1.getD k noEntry).name
        = (surveys.getD k noSurvey).name ∧
      ((create_surveys envId surveys api).1.getD k noEntry).api_success
        = acceptedC (api k) := by
  obtain ⟨h1, h2, h3⟩ := create_surveys_loop_spec api surveys 1 0
  have hc : create_surveys envId surveys api = create_surveys_loop api surveys 1 0 := by
    simp [create_surveys, h]
  refine ⟨by rw [hc]; exact h1, ?_⟩
  intro k hk
  rw [hc, h3 k hk]
  have e0 : (0 : Nat) + k = k := by omega
  have e1 : 1 + k = k + 1 := by omega
  rw [e0, e1]
  cases hres : api k with
  | resp s d =>
    by_cases hs : (s = 200 || s = 201) = true
    · simp [create_survey_entry, hs, acceptedC]
    · simp [create_survey_entry, hs, acceptedC]
  | exn m => simp [create_survey_entry, acceptedC]

/-- Witness for create_surveys_mapping_entries at a concrete accepted
run, instantiated at the first entry. -/
theorem create_surveys_mapping_entries_witness :
    (create_surveys (some "env") [noSurvey]
        (fun _ => CreateResult.resp 200 (some "RID"))).1.length = [noSurvey].length ∧
    ((create_surveys (some "env") [noSurvey]
        (fun _ => CreateResult.resp 200 (some "RID"))).1.getD 0 noEntry).position
      = some 1 ∧
    ((create_surveys (some "env") [noSurvey]
        (fun _ => CreateResult.resp 200 (some "RID"))).1.getD 0 noEntry).api_success
      = acceptedC (CreateResult.resp 200 (some "RID")) := by
  obtain ⟨h1, h2⟩ := create_surveys_mapping_entries (some "env") [noSurvey]
    (fun _ => CreateResult.resp 200 (some "RID")) (by decide)
  obtain ⟨hp, _, _, hs⟩ := h2 0 (by decide)
  exact ⟨h1, hp, hs⟩

/-! ## Claim C4 -/

/-- Claim C4, counterexample.  The claim states that on a non-2xx
rejection the publisher tries further candidate payloads (a payload
without the context identifier, then a minimal single-question payload)
and records a failure entry only after all candidates are rejected.  The
source builds exactly one payload and performs exactly one POST per
survey: with an oracle rejecting every request with status 400, one survey
yields exactly one HTTP request in total and nonetheless a recorded
failure entry — no further candidate payload is ever attempted. -/
theorem create_surveys_no_fallback_counterexample :
    (create_surveys (some "env") [noSurvey] (fun _ => CreateResult.resp 400 none)).2 = 1 ∧
    ((create_surveys (some "env") [noSurvey]
        (fun _ => CreateResult.resp 400 none)).1.getD 0 noEntry).api_success = false ∧
    ((create_surveys (some "env") [noSurvey]
        (fun _ => CreateResult.resp 400 none)).1.getD 0 noEntry).error
      = some "HTTP 400" := by
  decide

/-- Claim C4 (amended): for every survey whose create request is rejected
with a status other than 200 and 201, the publisher records the failure
entry immediately: it performs exactly one create request per survey (the
request count equals the survey count) and there are no fallback candidate
payloads. -/
theorem create_surveys_one_attempt_per_survey (envId : Option String)
    (surveys : List Survey) (api : Nat → CreateResult)
    (h : isFalsyStr envId = false) :
    (create_surveys envId surveys api).2 = surveys.length ∧
    ∀ k, k < surveys.length → ∀ s d, api k = CreateResult.resp s d →
      s ≠ 200 → s ≠ 201 →
      ((create_surveys envId surveys api).1.getD k noEntry).api_success = false ∧
      ((create_surveys envId surveys api).1.getD k noEntry).error
        = some ("HTTP " ++ toString s) := by
  obtain ⟨h1, h2, h3⟩ := create_surveys_loop_spec api surveys 1 0
  have hc : create_surveys envId surveys api = create_surveys_loop api surveys 1 0 := by
    simp [create_surveys, h]
  refine ⟨by rw [hc, h2]; omega, ?_⟩
  intro k hk s d hres hs200 hs201
  rw [hc, h3 k hk]
  have e0 : (0 : Nat) + k = k := by omega
  rw [e0, hres]
  have hs : (s = 200 || s = 201) = false := by
    simp [hs200, hs201]
  simp [create_survey_entry, hs]

/-- Witness for create_surveys_one_attempt_per_survey at a concrete
rejected run, instantiated at the first entry. -/
theorem create_surveys_one_attempt_per_survey_witness :
    (create_surveys (some "env") [noSurvey]
        (fun _ => CreateResult.resp 500 none)).2 = [noSurvey].length ∧
    ((create_surveys (some "env") [noSurvey]
        (fun _ => CreateResult.resp 500 none)).1.getD 0 noEntry).api_success = false ∧
    ((create_surveys (some "env") [noSurvey]
        (fun _ => CreateResult.resp 500 none)).1.getD 0 noEntry).error
      = some ("HTTP " ++ toString 500) := by
  obtain ⟨h1, h2⟩ := create_surveys_one_attempt_per_survey (some "env") [noSurvey]
    (fun _ => CreateResult.resp 500 none) (by decide)
  obtain ⟨ha, hb⟩ := h2 0 (by decide) 500 none rfl (by decide) (by decide)
  exact ⟨h1, ha, hb⟩

/-! ## Claim C5 -/

/-- Claim C5, counterexample.  The claim states that with no configured
value the discoverer falls through to inspecting a list-surveys call,
yielding the embedded identifier, the sentinel default, or None when that
call fails.  The source's _get_environment_id performs no HTTP request at
all: with no configured value it returns the hardcoded fallback constant
unconditionally — in particular the result is never None (clause 5 of the
claimed policy is false whatever any list call would return), and it is
never the sentinel default. -/
theorem get_environment_id_counterexample :
    get_environment_id none = some hardcoded_environment_id ∧
    get_environment_id none ≠ none ∧
    get_environment_id none ≠ some "default" := by
  decide

/-- Claim C5 (amended): the environment discoverer returns the explicit
configuration value when it is truthy and the hardcoded fallback constant
otherwise; it performs no list-surveys call, and its result is always
present (never None). -/
theorem get_environment_id_policy (cfg : Option String) :
    get_environment_id cfg
      = (if isFalsyStr cfg then some hardcoded_environment_id else cfg) ∧
    (get_environment_id cfg).isSome = true := by
  cases cfg with
  | none => simp [get_environment_id, isFalsyStr]
  | some e =>
    by_cases he : e = "" <;> simp [get_environment_id, isFalsyStr, he]

/-! ## Behaviour of the submission loop -/

/-- Whatever branch the per-response body takes, it only assigns outcome
fields on the record (the rest of the record is unchanged) and always
leaves a submitted flag. -/
theorem process_response_fields (base : String) (apiSurveys : List SurveyEntry)
    (mapping : List (String × SurveyEntry)) (api : Nat → ApiResult)
    (c : Nat) (r : Response) :
    stripOutcome (process_response base apiSurveys mapping api c r).1
      = stripOutcome r ∧
    ((process_response base apiSurveys mapping api c r).1).submitted.isSome = true := by
  rcases hres : resolve_survey mapping apiSurveys r.survey_id with _ | e
  · simp [process_response, hres, markUnsubmitted, stripOutcome]
  · rcases hsid : actual_survey_id e with _ | sid
    · simp [process_response, hres, hsid, markUnsubmitted, stripOutcome]
    · rcases hloop : submit_loop api (submission_endpoints base) c with ⟨lbl, c2⟩
      rcases lbl with _ | l
      · simp [process_response, hres, hsid, hloop, markUnsubmitted, stripOutcome]
      · simp [process_response, hres, hsid, hloop, markUnsubmitted, stripOutcome]

/-- The response loop returns one record per input response, in input
order; the i-th output record is the per-response body applied to the i-th
input at some request counter. -/
theorem submit_responses_go_spec (base : String) (apiSurveys : List SurveyEntry)
    (mapping : List (String × SurveyEntry)) (api : Nat → ApiResult) :
    ∀ (rs : List Response) (c : Nat),
      (submit_responses_go base apiSurveys mapping api rs c).1.length = rs.length ∧
      ∀ i, i < rs.length → ∃ c2,
        (submit_responses_go base apiSurveys mapping api rs c).1.getD i noResponse
          = (process_response base apiSurveys mapping api c2 (rs.getD i noResponse)).1
  | [], c => by simp [submit_responses_go]
  | r :: rest, c => by
    rcases hp : process_response base apiSurveys mapping api c r with ⟨r2, c2⟩
    obtain ⟨h1, h2⟩ := submit_responses_go_spec base apiSurveys mapping api rest c2
    rcases hrec : submit_responses_go base apiSurveys mapping api rest c2 with ⟨rs2, c3⟩
    rw [hrec] at h1 h2
    refine ⟨by simp [submit_responses_go, hp, hrec, h1], ?_⟩
    intro i hi
    cases i with
    | zero =>
      refine ⟨c, ?_⟩
      simp [submit_responses_go, hp, hrec]
    | succ i =>
      have hi2 : i < rest.length := by simpa using hi
      obtain ⟨cw, hw⟩ := h2 i hi2
      refine ⟨cw, ?_⟩
      simp only [submit_responses_go, hp, hrec, List.getD_cons_succ]
      exact hw

/-! ## Claim C2 -/

/-- Claim C2: if the publish step produced zero entries with api_success
true, submit_responses performs no HTTP request at all (the request count
is zero) and returns exactly the input responses, each marked
submitted = false and api_success = false. -/
theorem submit_responses_degraded (base : String) (created : List SurveyEntry)
    (responses : List Response) (api : Nat → ApiResult)
    (h : created.filter (fun s => s.api_success) = []) :
    submit_responses base created responses api
      = (responses.map markUnsubmitted, 0) ∧
    ∀ resp ∈ (submit_responses base created responses api).1,
      resp.submitted = some false ∧ resp.api_success = some false := by
  have hmain : submit_responses base created responses api
      = (responses.map markUnsubmitted, 0) := by
    simp [submit_responses, h]
  refine ⟨hmain, ?_⟩
  intro resp hresp
  rw [hmain] at hresp
  simp only [List.mem_map] at hresp
  obtain ⟨r, _, rfl⟩ := hresp
  simp [markUnsubmitted]

/-- Witness for submit_responses_degraded: one failed entry, one
response. -/
theorem submit_responses_degraded_witness :
    submit_responses "http://localhost:3000" [sampleFailedEntry] [sampleResponse]
        (fun _ => ApiResult.resp 200)
      = ([sampleResponse].map markUnsubmitted, 0) ∧
    ∀ resp ∈ (submit_responses "http://localhost:3000" [sampleFailedEntry]
        [sampleResponse] (fun _ => ApiResult.resp 200)).1,
      resp.submitted = some false ∧ resp.api_success = some false :=
  submit_responses_degraded "http://localhost:3000" [sampleFailedEntry]
    [sampleResponse] (fun _ => ApiResult.resp 200) (by decide)

/-! ## Claim C3 -/

/-- Claim C3: submit_responses returns one record per input response (none
is ever dropped), and every response whose survey reference does not
resolve against the successful entries — neither falsy, nor by exact
mapping key, nor by the parsed positional fallback, nor with a usable
remote id missing (all of which resolve_survey and the body capture) — is
returned marked submitted = false and api_success = false.  The embedding
is a total function: the only exceptions the source can raise on this path
(the failed int parse of the reference suffix) are caught by its bare
except and are modelled by the none branches. -/
theorem submit_responses_unresolved (base : String) (created : List SurveyEntry)
    (responses : List Response) (api : Nat → ApiResult) :
    (submit_responses base created responses api).1.length = responses.length ∧
    ∀ i, i < responses.length →
      resolve_survey (build_mapping (created.filter (fun s => s.api_success)))
        (created.filter (fun s => s.api_success))
        ((responses.getD i noResponse).survey_id) = none →
      (submit_responses base created responses api).1.getD i noResponse
        = markUnsubmitted (responses.getD i noResponse) := by
  by_cases he : (created.filter (fun s => s.api_success)).isEmpty = true
  · have hmain : submit_responses base created responses api
        = (responses.map markUnsubmitted, 0) := by
      simp [submit_responses, he]
    rw [hmain]
    refine ⟨by simp, ?_⟩
    intro i hi _
    rw [List.getD_eq_getElem?_getD, List.getD_eq_getElem?_getD,
      List.getElem?_map]
    have hsome : responses[i]? = some responses[i] := List.getElem?_eq_getElem hi
    rw [hsome]
    rfl
  · have he2 : (created.filter (fun s => s.api_success)).isEmpty = false := by
      simpa using he
    have hmain : submit_responses base created responses api
        = submit_responses_go base (created.filter (fun s => s.api_success))
            (build_mapping (created.filter (fun s => s.api_success))) api responses 0 := by
      simp [submit_responses, he2]
    obtain ⟨h1, h2⟩ := submit_responses_go_spec base
      (created.filter (fun s => s.api_success))
      (build_mapping (created.filter (fun s => s.api_success))) api responses 0
    rw [hmain]
    refine ⟨h1, ?_⟩
    intro i hi hres
    obtain ⟨c2, hc2⟩ := h2 i hi
    rw [hc2]
    simp only [process_response]
    rw [hres]

/-- Witness for submit_responses_unresolved: a response referencing a
survey absent from the mapping is returned, marked unsubmitted. -/
theorem submit_responses_unresolved_witness :
    (submit_responses "b" [sampleEntry]
        [{ id := "r9", survey_id := some "survey_9" }]
        (fun _ => ApiResult.resp 200)).1.length
      = [({ id := "r9", survey_id := some "survey_9" } : Response)].length ∧
    (submit_responses "b" [sampleEntry]
        [{ id := "r9", survey_id := some "survey_9" }]
        (fun _ => ApiResult.resp 200)).1.getD 0 noResponse
      = markUnsubmitted ([({ id := "r9", survey_id := some "survey_9" } : Response)].getD
          0 noResponse) := by
  obtain ⟨h1, h2⟩ := submit_responses_unresolved "b" [sampleEntry]
    [{ id := "r9", survey_id := some "survey_9" }] (fun _ => ApiResult.resp 200)
  exact ⟨h1, h2 0 (by decide) (by decide)⟩

/-! ## Claim C6 -/

/-- Claim C6, counterexample.  The claim states that submission outcomes
are recorded on copies and the input response records are left unchanged.
The source assigns the outcome fields on the input dicts themselves and
returns those same objects: after a run over one response (here with no
successful survey, so the response is marked unsubmitted), the input
record carries the assigned fields and no longer equals its pre-call
value. -/
theorem submit_responses_mutation_counterexample :
    inputs_after_submit "http://localhost:3000" [] [sampleResponse]
        (fun _ => ApiResult.exn "connection refused")
      ≠ [sampleResponse] := by
  decide

/-- Claim C6 (amended): submit_responses records the submission outcomes
(submitted, api_success, endpoint used, mapped-from id) as additional
fields assigned in place on the input response records; the returned list
consists of those same mutated records, one per input in input order, and
the fields outside the outcome set are never touched. -/
theorem submit_responses_in_place_outcomes (base : String)
    (created : List SurveyEntry) (responses : List Response)
    (api : Nat → ApiResult) :
    inputs_after_submit base created responses api
      = (submit_responses base created responses api).1 ∧
    (submit_responses base created responses api).1.length = responses.length ∧
    ∀ i, i < responses.length →
      stripOutcome ((submit_responses base created responses api).1.getD i noResponse)
        = stripOutcome (responses.getD i noResponse) ∧
      ((submit_responses base created responses api).1.getD i
          noResponse).submitted.isSome = true := by
  refine ⟨rfl, ?_⟩
  by_cases he : (created.filter (fun s => s.api_success)).isEmpty = true
  · have hmain : submit_responses base created responses api
        = (responses.map markUnsubmitted, 0) := by
      simp [submit_responses, he]
    rw [hmain]
    refine ⟨by simp, ?_⟩
    intro i hi
    have hsome : responses[i]? = some responses[i] := List.getElem?_eq_getElem hi
    rw [List.getD_eq_getElem?_getD, List.getD_eq_getElem?_getD,
      List.getElem?_map, hsome]
    simp [markUnsubmitted, stripOutcome]
  · have he2 : (created.filter (fun s => s.api_success)).isEmpty = false := by
      simpa using he
    have hmain : submit_responses base created responses api
        = submit_responses_go base (created.filter (fun s => s.api_success))
            (build_mapping (created.filter (fun s => s.api_success))) api responses 0 := by
      simp [submit_responses, he2]
    obtain ⟨h1, h2⟩ := submit_responses_go_spec base
      (created.filter (fun s => s.api_success))
      (build_mapping (created.filter (fun s => s.api_success))) api responses 0
    rw [hmain]
    refine ⟨h1, ?_⟩
    intro i hi
    obtain ⟨c2, hc2⟩ := h2 i hi
    rw [hc2]
    exact process_response_fields base _ _ api c2 _

/-- Witness for submit_responses_in_place_outcomes at a concrete run,
instantiated at the first record. -/
theorem submit_responses_in_place_outcomes_witness :
    inputs_after_submit "b" [sampleEntry] [sampleResponse]
        (fun _ => ApiResult.resp 201)
      = (submit_responses "b" [sampleEntry] [sampleResponse]
          (fun _ => ApiResult.resp 201)).1 ∧
    (submit_responses "b" [sampleEntry] [sampleResponse]
        (fun _ => ApiResult.resp 201)).1.length = [sampleResponse].length ∧
    stripOutcome ((submit_responses "b" [sampleEntry] [sampleResponse]
        (fun _ => ApiResult.resp 201)).1.getD 0 noResponse)
      = stripOutcome ([sampleResponse].getD 0 noResponse) ∧
    ((submit_responses "b" [sampleEntry] [sampleResponse]
        (fun _ => ApiResult.resp 201)).1.getD 0
        noResponse).submitted.isSome = true := by
  obtain ⟨h1, h2, h3⟩ := submit_responses_in_place_outcomes "b" [sampleEntry]
    [sampleResponse] (fun _ => ApiResult.resp 201)
  exact ⟨h1, h2, h3 0 (by decide)⟩

/-! ## Claim C7 -/

/-- Claim C7, counterexample.  The claim states that with the API key
absent the seeder cannot be constructed — true, __init__ raises — and that
no seeding results are produced.  The seed command catches the
construction error (commands.py line 184), proceeds on the degraded path
and still produces a results artifact (api_available false, zero API
counts): the final conjunct of the claim is false. -/
theorem seed_command_missing_key_counterexample :
    seeder_init {}
      = Except.error "FORMBRICKS_API_KEY environment variable is required" ∧
    (seed_command_stage {} true [noSurvey] [] []
        (fun _ => CreateResult.resp 200 none) (fun _ => ApiResult.resp 200)).1
      ≠ none ∧
    (seed_command_stage {} true [noSurvey] [] []
        (fun _ => CreateResult.resp 200 none) (fun _ => ApiResult.resp 200)).1
      = some { api_available := false, surveys_generated := 1,
               users_generated := 0, responses_generated := 0,
               surveys_created_via_api := 0, responses_submitted_via_api := 0 } := by
  exact ⟨rfl, by decide, by decide⟩

/-- Claim C7 (amended): when the API key is absent from configuration,
APISeeder.__init__ raises immediately; the seed command catches the error,
invokes neither survey creation nor response submission (the second
component is false), but still produces the degraded results artifact
marking the API unavailable with zero created and submitted counts. -/
theorem seed_command_missing_key (cfg : SeederCfg) (connOk : Bool)
    (surveys : List Survey) (users : List User) (responses : List Response)
    (capi : Nat → CreateResult) (sapi : Nat → ApiResult)
    (h : isFalsyStr (orTruthy cfg.apiKeyArg cfg.envApiKey) = true) :
    seeder_init cfg
      = Except.error "FORMBRICKS_API_KEY environment variable is required" ∧
    seed_command_stage cfg connOk surveys users responses capi sapi
      = (some { api_available := false, surveys_generated := surveys.length,
                users_generated := users.length,
                responses_generated := responses.length,
                surveys_created_via_api := 0,
                responses_submitted_via_api := 0 }, false) := by
  have hinit : seeder_init cfg
      = Except.error "FORMBRICKS_API_KEY environment variable is required" := by
    simp [seeder_init, h]
  exact ⟨hinit, by simp [seed_command_stage, hinit]⟩

/-- Witness for seed_command_missing_key at the empty configuration. -/
theorem seed_command_missing_key_witness :
    seeder_init {}
      = Except.error "FORMBRICKS_API_KEY environment variable is required" ∧
    seed_command_stage {} false [] [] [noResponse]
        (fun _ => CreateResult.exn "unused") (fun _ => ApiResult.exn "unused")
      = (some { api_available := false, surveys_generated := 0,
                users_generated := 0, responses_generated := 1,
                surveys_created_via_api := 0,
                responses_submitted_via_api := 0 }, false) :=
  seed_command_missing_key {} false [] [] [noResponse]
    (fun _ => CreateResult.exn "unused") (fun _ => ApiResult.exn "unused")
    (by decide)

/-! ## Claim C8 -/

/-- Claim C8, counterexample.  The claim states that a response rejected
by the first endpoint/shape attempt but accepted with a 2xx status by a
later attempt is marked submitted.  Status 202 is a 2xx status, yet the
source accepts only 200 and 201 (lines 391 and 418): with the first
attempt rejected (400) and every later attempt answering 202, the
response stays unsubmitted — the claim is false as stated. -/
theorem submit_responses_202_not_accepted_counterexample :
    is2xxStatus 202 = true ∧
    ((submit_responses "b" [sampleEntry] [sampleResponse]
        (fun i => if i = 0 then ApiResult.resp 400 else ApiResult.resp 202)).1.getD
        0 noResponse).submitted = some false := by
  decide

/-- Claim C8 (amended: acceptance means status 200 or 201, not any 2xx).
For a response whose reference resolves to a usable remote id, if the
first endpoint/shape attempt is rejected with a non-accepted status and
some later attempt of the ordered candidate list (first endpoint with the
alternative shape, then the second endpoint with the primary and then the
alternative shape) returns 200 or 201 — with no transport exception among
the four attempts — then submit_responses marks the response
submitted = true and records the accepting endpoint (with the alt-format
suffix when the alternative shape won) in the returned record. -/
theorem submit_responses_later_attempt_accepts (base : String)
    (created : List SurveyEntry) (r : Response) (api : Nat → ApiResult)
    (e : SurveyEntry) (sid : String)
    (hne : (created.filter (fun s => s.api_success)).isEmpty = false)
    (hres : resolve_survey (build_mapping (created.filter (fun s => s.api_success)))
      (created.filter (fun s => s.api_success)) r.survey_id = some e)
    (hsid : actual_survey_id e = some sid)
    (h0 : isRespR (api 0) = true) (h0r : acceptedR (api 0) = false)
    (h1 : isRespR (api 1) = true) (h2 : isRespR (api 2) = true)
    (h3 : isRespR (api 3) = true)
    (hacc : (acceptedR (api 1) || acceptedR (api 2) || acceptedR (api 3)) = true) :
    ((submit_responses base created [r] api).1.getD 0 noResponse).submitted
      = some true ∧
    ((submit_responses base created [r] api).1.getD 0 noResponse).endpoint_used
      = some (if acceptedR (api 1) then
          (submission_endpoints base).getD 0 "" ++ " (alt format)"
        else if acceptedR (api 2) then (submission_endpoints base).getD 1 ""
        else (submission_endpoints base).getD 1 "" ++ " (alt format)") := by
  have hmain : submit_responses base created [r] api
      = submit_responses_go base (created.filter (fun s => s.api_success))
          (build_mapping (created.filter (fun s => s.api_success))) api [r] 0 := by
    simp [submit_responses, hne]
  rw [hmain]
  cases ha0 : api 0 with
  | exn m => rw [ha0] at h0; simp [isRespR] at h0
  | resp s0 =>
    rw [ha0] at h0r
    have hs0 : (s0 = 200 || s0 = 201) = false := by simpa [acceptedR] using h0r
    cases ha1 : api 1 with
    | exn m => rw [ha1] at h1; simp [isRespR] at h1
    | resp s1 =>
      cases ha2 : api 2 with
      | exn m => rw [ha2] at h2; simp [isRespR] at h2
      | resp s2 =>
        cases ha3 : api 3 with
        | exn m => rw [ha3] at h3; simp [isRespR] at h3
        | resp s3 =>
          simp only [ha1, ha2, ha3] at hacc ⊢
          by_cases hb1 : (s1 = 200 || s1 = 201) = true
          · simp [submit_responses_go, process_response, hres, hsid,
              submission_endpoints, submit_loop, ha0, ha1, hs0, hb1, acceptedR]
          · have hb1f : (s1 = 200 || s1 = 201) = false := by
              simpa using hb1
            by_cases hb2 : (s2 = 200 || s2 = 201) = true
            · simp [submit_responses_go, process_response, hres, hsid,
                submission_endpoints, submit_loop, ha0, ha1, ha2, hs0, hb1f,
                hb2, acceptedR]
            · have hb2f : (s2 = 200 || s2 = 201) = false := by
                simpa using hb2
              have hb3 : (s3 = 200 || s3 = 201) = true := by
                simp [acceptedR, hb1f, hb2f] at hacc
                simpa [acceptedR]
              simp [submit_responses_go, process_response, hres, hsid,
                submission_endpoints, submit_loop, ha0, ha1, ha2, ha3, hs0,
                hb1f, hb2f, hb3, acceptedR]

/-- Witness for submit_responses_later_attempt_accepts: the first attempt
is rejected with 400 and the alternative shape at the first endpoint is
accepted with 201. -/
theorem submit_responses_later_attempt_accepts_witness :
    ((submit_responses "b" [sampleEntry] [sampleResponse]
        (fun i => if i = 0 then ApiResult.resp 400 else ApiResult.resp 201)).1.getD
        0 noResponse).submitted = some true ∧
    ((submit_responses "b" [sampleEntry] [sampleResponse]
        (fun i => if i = 0 then ApiResult.resp 400 else ApiResult.resp 201)).1.getD
        0 noResponse).endpoint_used
      = some (if acceptedR ((fun i => if i = 0 then ApiResult.resp 400
            else ApiResult.resp 201) 1) then
          (submission_endpoints "b").getD 0 "" ++ " (alt format)"
        else if acceptedR ((fun i => if i = 0 then ApiResult.resp 400
            else ApiResult.resp 201) 2) then (submission_endpoints "b").getD 1 ""
        else (submission_endpoints "b").getD 1 "" ++ " (alt format)") :=
  submit_responses_later_attempt_accepts "b" [sampleEntry] sampleResponse
    (fun i => if i = 0 then ApiResult.resp 400 else ApiResult.resp 201)
    sampleEntry "RID" (by decide) (by decide) (by decide) (by decide)
    (by decide) (by decide) (by decide) (by decide) (by decide)

/-! ## Behaviour of the mock survey generator -/

/-- Each question built by the question loop carries the id q(i+1) for its
0-based loop index i. -/
theorem make_question_qid (r : Rng) (i : Nat) :
    (make_question r i).1.qid = some ("q" ++ toString (i + 1)) := by
  simp [make_question]

/-- The question loop builds one question per index with ids q(i+1),
q(i+2), ... in order. -/
theorem make_questions_spec (n : Nat) : ∀ (r : Rng) (i : Nat),
    (make_questions r i n).1.length = n ∧
    (make_questions r i n).1.map Question.qid
      = (List.range n).map (fun k => some ("q" ++ toString (i + k + 1))) := by
  induction n with
  | zero => intro r i; simp [make_questions]
  | succ n ih =>
    intro r i
    rcases hq : make_question r i with ⟨q, r1⟩
    obtain ⟨ih1, ih2⟩ := ih r1 (i + 1)
    rcases hrec : make_questions r1 (i + 1) n with ⟨qs, r2⟩
    rw [hrec] at ih1 ih2
    have hqid : q.qid = some ("q" ++ toString (i + 1)) := by
      have := make_question_qid r i
      rwa [hq] at this
    constructor
    · simp [make_questions, hq, hrec, ih1]
    · simp only [make_questions, hq, hrec, List.map_cons, List.range_succ_eq_map,
        List.map_map]
      rw [hqid, ih2]
      refine congrArg _ ?_
      refine List.map_congr_left ?_
      intro k _
      simp only [Function.comp]
      have e : i + 1 + k + 1 = i + (k + 1) + 1 := by omega
      rw [e]

/-- The id lists q1..qN are duplicate-free for every count the generator
can draw. -/
theorem qid_list_nodup (n : Nat) (h : n ≤ 5) :
    ((List.range n).map (fun k => some ("q" ++ toString (k + 1)))).Nodup := by
  interval_cases n <;> decide

/-- Every mock-generated survey has between 3 and 5 questions, whose ids
are exactly q1..qN in order. -/
theorem generate_mock_survey_spec (name : String) (r : Rng) :
    3 ≤ (generate_mock_survey name r).1.questions.length ∧
    (generate_mock_survey name r).1.questions.length ≤ 5 ∧
    (generate_mock_survey name r).1.questions.map Question.qid
      = (List.range (generate_mock_survey name r).1.questions.length).map
          (fun k => some ("q" ++ toString (k + 1))) := by
  rcases hn : r.next with ⟨nv, r1⟩
  obtain ⟨hlen, hmap⟩ := make_questions_spec (3 + nv % 3) r1 0
  rcases hq : make_questions r1 0 (3 + nv % 3) with ⟨qs, r2⟩
  rw [hq] at hlen hmap
  rcases ht : r2.next with ⟨tv, r3⟩
  have hqs : (generate_mock_survey name r).1.questions = qs := by
    simp [generate_mock_survey, hn, hq, ht]
  rw [hqs, hlen]
  have hm3 : nv % 3 < 3 := Nat.mod_lt _ (by omega)
  refine ⟨by omega, by omega, ?_⟩
  rw [hmap]
  refine List.map_congr_left ?_
  intro k _
  have e : 0 + k + 1 = k + 1 := by omega
  rw [e]

/-- The survey loop of generate_surveys yields one survey per iteration,
each generated on the mock path (its questions therefore satisfy the mock
generator guarantees). -/
theorem generate_surveys_loop_spec : ∀ (n i : Nat) (r : Rng),
    (generate_surveys_loop r i n).1.length = n ∧
    ∀ s ∈ (generate_surveys_loop r i n).1,
      3 ≤ s.questions.length ∧ s.questions.length ≤ 5 ∧
      s.questions.map Question.qid
        = (List.range s.questions.length).map
            (fun k => some ("q" ++ toString (k + 1)))
  | 0, i, r => by simp [generate_surveys_loop]
  | n + 1, i, r => by
    rcases hsv : generate_mock_survey (survey_types.getD i ("", "")).1 r with ⟨sv, r1⟩
    rcases hd : r1.next with ⟨dv, r2⟩
    obtain ⟨ih1, ih2⟩ := generate_surveys_loop_spec n (i + 1) r2
    rcases hrec : generate_surveys_loop r2 (i + 1) n with ⟨rest, r3⟩
    rw [hrec] at ih1 ih2
    obtain ⟨g1, g2, g3⟩ := generate_mock_survey_spec (survey_types.getD i ("", "")).1 r
    rw [hsv] at g1 g2 g3
    simp only at ih1
    constructor
    · simp only [generate_surveys_loop, hsv, hd, hrec, List.length_cons]
      omega
    · intro s hs
      simp only [generate_surveys_loop, hsv, hd, hrec, List.mem_cons] at hs
      rcases hs with hs | hs
      · subst hs
        exact ⟨g1, g2, g3⟩
      · exact ih2 s hs

/-- Claim C9: for every requested count n (and every random stream),
generate_surveys returns exactly min(n, 5) surveys — capped at the number
of fixed archetypes — and every mock-generated survey has between 3 and 5
questions whose ids are exactly q1..qN for its question count N, hence
pairwise distinct. -/
theorem generate_surveys_spec (n : Nat) (r : Rng) :
    (generate_surveys n r).1.length = min n 5 ∧
    ∀ s ∈ (generate_surveys n r).1,
      3 ≤ s.questions.length ∧ s.questions.length ≤ 5 ∧
      s.questions.map Question.qid
        = (List.range s.questions.length).map
            (fun k => some ("q" ++ toString (k + 1))) ∧
      (s.questions.map Question.qid).Nodup := by
  obtain ⟨h1, h2⟩ := generate_surveys_loop_spec (min n survey_types.length) 0 r
  have hlen5 : survey_types.length = 5 := by decide
  constructor
  · rw [generate_surveys, h1, hlen5]
  · intro s hs
    obtain ⟨g1, g2, g3⟩ := h2 s hs
    refine ⟨g1, g2, g3, ?_⟩
    rw [g3]
    exact qid_list_nodup s.questions.length g2

/-- Witness for generate_surveys_spec, instantiated at the first survey of
a concrete run. -/
theorem generate_surveys_spec_witness :
    (generate_surveys 1 ⟨fun _ => 0, 0⟩).1.length = min 1 5 ∧
    (3 ≤ ((generate_surveys 1 ⟨fun _ => 0, 0⟩).1.getD 0 noSurvey).questions.length ∧
     ((generate_surveys 1 ⟨fun _ => 0, 0⟩).1.getD 0 noSurvey).questions.length ≤ 5 ∧
     (((generate_surveys 1 ⟨fun _ => 0, 0⟩).1.getD 0 noSurvey).questions.map
        Question.qid).Nodup) := by
  obtain ⟨h1, h2⟩ := generate_surveys_spec 1 ⟨fun _ => 0, 0⟩
  obtain ⟨g1, g2, _, g4⟩ := h2 ((generate_surveys 1 ⟨fun _ => 0, 0⟩).1.getD 0 noSurvey)
    (by decide)
  exact ⟨h1, g1, g2, g4⟩

/-! ## Behaviour of the response generator -/

/-- A selected element together with the remainder after removing it is a
permutation of the original list. -/
theorem getD_cons_eraseIdx_perm {α : Type} :
    ∀ (l : List α) (j : Nat) (d : α), j < l.length →
      List.Perm (l.getD j d :: l.eraseIdx j) l
  | [], j, d, h => by simp at h
  | a :: as, 0, d, h => by simp
  | a :: as, j + 1, d, h => by
    have hj : j < as.length := by simpa using h
    have ih := getD_cons_eraseIdx_perm as j d hj
    simp only [List.getD_cons_succ, List.eraseIdx_cons_succ]
    exact (List.Perm.swap a (as.getD j d) (as.eraseIdx j)).trans (ih.cons a)

/-- The shuffle model returns a permutation of its input (the only
property of random.shuffle the seeding code relies on). -/
theorem shuffle_go_perm {α : Type} : ∀ (n : Nat) (l : List α) (r : Rng),
    l.length ≤ n → List.Perm (shuffle_go r n l).1 l
  | 0, l, r, h => by
    have hl : l = [] := List.eq_nil_of_length_eq_zero (by omega)
    subst hl
    simp [shuffle_go]
  | n + 1, [], r, h => by simp [shuffle_go]
  | n + 1, a :: as, r, h => by
    rcases hv : r.next with ⟨v, r1⟩
    have hjlt : v % (a :: as).length < (a :: as).length :=
      Nat.mod_lt _ (by simp)
    have herase : ((a :: as).eraseIdx (v % (a :: as).length)).length ≤ n := by
      rw [List.length_eraseIdx]
      simp only [if_pos hjlt]
      simp only [List.length_cons] at h ⊢
      omega
    have ih := shuffle_go_perm n ((a :: as).eraseIdx (v % (a :: as).length)) r1 herase
    rcases hrec : shuffle_go r1 n ((a :: as).eraseIdx (v % (a :: as).length))
      with ⟨rest, r2⟩
    rw [hrec] at ih
    simp only [shuffle_go, hv, hrec]
    exact (ih.cons _).trans
      (getD_cons_eraseIdx_perm (a :: as) (v % (a :: as).length) a hjlt)

/-- The shuffled user list is a permutation of the users. -/
theorem shuffle_perm {α : Type} (r : Rng) (l : List α) :
    List.Perm (shuffle r l).1 l :=
  shuffle_go_perm l.length l r (Nat.le_refl _)

/-- randint succeeds whenever the range is nonempty, with a result at
least lo. -/
theorem randint_ok (r : Rng) (lo hi : Nat) (h : lo ≤ hi) :
    ∃ v r1, randint r lo hi = Except.ok (v, r1) ∧ lo ≤ v := by
  rcases hn : r.next with ⟨w, r1⟩
  have hnot : ¬ hi < lo := by omega
  refine ⟨lo + w % (hi + 1 - lo), r1, ?_, by omega⟩
  simp [randint, hnot, hn]

/-- An answerable question always yields an answer (no raise). -/
theorem mock_answer_ok (q : Question) (r : Rng)
    (h : question_answerable q = true) :
    ∃ a r1, mock_answer q r = Except.ok (a, r1) := by
  by_cases h1 : q.qtype = "rating"
  · have hr : 1 ≤ q.range.getD 5 := by
      simp [question_answerable, h1] at h
      exact h
    by_cases h5 : q.range.getD 5 = 5
    · rcases hn : r.next with ⟨v, r1⟩
      have hm : mock_answer q r
          = Except.ok (toString ([1, 2, 3, 4, 5].getD (v % 5) 5), r1) := by
        simp [mock_answer, h1, h5, hn]
      exact ⟨_, _, hm⟩
    · obtain ⟨v, r1, hv, _⟩ := randint_ok r 1 (q.range.getD 5) hr
      have hm : mock_answer q r = Except.ok (toString v, r1) := by
        simp [mock_answer, h1, h5, hv]
      exact ⟨_, _, hm⟩
  · by_cases h2 : q.qtype = "multipleChoice"
    · have hc : (q.choices.getD ["Option A", "Option B"]).isEmpty = false := by
        simp [question_answerable, h1, h2] at h
        simpa using h
      rcases hn : r.next with ⟨v, r1⟩
      have hm : mock_answer q r
          = Except.ok ((q.choices.getD ["Option A", "Option B"]).getD
              (v % (q.choices.getD ["Option A", "Option B"]).length) "", r1) := by
        simp [mock_answer, h1, h2, hc, hn]
      exact ⟨_, _, hm⟩
    · rcases hn : r.next with ⟨v, r1⟩
      have hm : mock_answer q r
          = Except.ok (canned_text_answers.getD
              (v % canned_text_answers.length) "", r1) := by
        simp [mock_answer, h1, h2, hn]
      exact ⟨_, _, hm⟩

/-- A survey of answerable questions always yields a full answer map. -/
theorem generate_mock_response_ok :
    ∀ (qs : List Question) (i : Nat) (r : Rng),
      (∀ q ∈ qs, question_answerable q = true) →
      ∃ d r1, generate_mock_response qs i r = Except.ok (d, r1)
  | [], i, r, h => ⟨[], r, rfl⟩
  | q :: rest, i, r, h => by
    obtain ⟨a, r1, ha⟩ := mock_answer_ok q r (h q (by simp))
    obtain ⟨d, r2, hd⟩ := generate_mock_response_ok rest (i + 1) r1
      (fun x hx => h x (by simp [hx]))
    have hm : generate_mock_response (q :: rest) i r
        = Except.ok ((q.qid.getD ("q" ++ toString (i + 1)), a) :: d, r2) := by
      simp [generate_mock_response, ha, hd]
    exact ⟨_, _, hm⟩

/-- The inner response loop for one survey never raises when the survey's
questions are answerable; its records take the users at positions i, i+1,
... of the shuffled list in order (all distinct positions) and all carry
the survey's id. -/
theorem responses_for_survey_spec (s : Survey) (avail : List User)
    (hq : ∀ q ∈ s.questions, question_answerable q = true) :
    ∀ (n i rid : Nat) (r : Rng),
      ∃ block rid2 r2,
        responses_for_survey s avail r i rid n = Except.ok (block, rid2, r2) ∧
        block.map Response.user_id
          = ((avail.drop i).take n).map (fun u => some u.id) ∧
        ∀ resp ∈ block, resp.survey_id = s.id
  | 0, i, rid, r => ⟨[], rid, r, rfl, by simp, by simp⟩
  | n + 1, i, rid, r => by
    rcases hg : avail[i]? with _ | u
    · refine ⟨[], rid, r, ?_, ?_, by simp⟩
      · simp [responses_for_survey, hg]
      · have hd : avail.drop i = [] := by
          rw [List.drop_eq_nil_iff]
          exact List.getElem?_eq_none_iff.mp hg
        simp [hd]
    · obtain ⟨d, r1, hd⟩ := generate_mock_response_ok s.questions 0 r hq
      rcases hn1 : r1.next with ⟨cv, r2⟩
      rcases hn2 : r2.next with ⟨tv, r3⟩
      obtain ⟨block, rid2, r4, hrec, hmap, hsur⟩ :=
        responses_for_survey_spec s avail hq n (i + 1) (rid + 1) r3
      have hlt : i < avail.length := by
        by_contra hcon
        rw [List.getElem?_eq_none (by omega)] at hg
        exact Option.noConfusion hg
      have hdrop : avail.drop i = u :: avail.drop (i + 1) := by
        have h2 := List.getElem?_eq_getElem hlt
        rw [hg] at h2
        rw [List.drop_eq_getElem_cons hlt, ← Option.some.inj h2]
      refine ⟨({ id := "response_" ++ toString rid, survey_id := s.id,
                 user_id := some u.id, createdHoursAgo := some (1 + cv % 168),
                 rdata := d, ttc := some (30 + tv % 271) } : Response) :: block,
              rid2, r4, ?_, ?_, ?_⟩
      · simp [responses_for_survey, hg, hd, hn1, hn2, hrec]
      · rw [hdrop]
        simp [hmap]
      · intro resp hresp
        rcases List.mem_cons.mp hresp with hresp | hresp
        · subst hresp; rfl
        · exact hsur resp hresp

/-- The outer response loop: with a nonempty, duplicate-free user list and
answerable questions it never raises and yields, per survey in order, a
nonempty block of responses attributed to pairwise distinct users and
carrying that survey's id. -/
theorem generate_responses_go_spec (users : List User) (hu : users ≠ [])
    (hnodup : (users.map User.id).Nodup) :
    ∀ (surveys : List Survey),
      (∀ s ∈ surveys, ∀ q ∈ s.questions, question_answerable q = true) →
      ∀ (rid : Nat) (r : Rng),
        ∃ blocks rid2 r2,
          generate_responses_go users surveys rid r
            = Except.ok (blocks.flatten, rid2, r2) ∧
          List.Forall₂ (fun (s : Survey) (block : List Response) =>
            block ≠ [] ∧ (block.map Response.user_id).Nodup ∧
            ∀ resp ∈ block, resp.survey_id = s.id) surveys blocks
  | [], _, rid, r => ⟨[], rid, r, by simp [generate_responses_go], List.Forall₂.nil⟩
  | s :: rest, h, rid, r => by
    rcases hsh : shuffle r users with ⟨avail, r1⟩
    have hperm : List.Perm avail users := by
      have := shuffle_perm r users
      rwa [hsh] at this
    have hlen : avail.length = users.length := hperm.length_eq
    have hpos : 0 < users.length := List.length_pos.mpr hu
    obtain ⟨num, r2, hri, hnum⟩ := randint_ok r1 1 (min 3 avail.length) (by omega)
    obtain ⟨block, rid2, r3, hbl, hmap, hsur⟩ :=
      responses_for_survey_spec s avail (h s (by simp)) num 0 rid r2
    obtain ⟨blocks, rid3, r4, hgo, hfa⟩ :=
      generate_responses_go_spec users hu hnodup rest
        (fun x hx => h x (by simp [hx])) rid2 r3
    refine ⟨block :: blocks, rid3, r4, ?_, ?_⟩
    · simp [generate_responses_go, hsh, hri, hbl, hgo]
    · refine List.Forall₂.cons ⟨?_, ?_, hsur⟩ hfa
      · have hblen : block.length = min num avail.length := by
          have := congrArg List.length hmap
          simpa using this
        have : block.length ≠ 0 := by omega
        intro hcon
        exact this (by simp [hcon])
      · have hmap2 : block.map Response.user_id
            = ((avail.take num).map User.id).map some := by
          rw [hmap]
          simp only [List.drop_zero, List.map_map]
          rfl
        rw [hmap2]
        refine List.Nodup.map (Option.some_injective _) ?_
        have havail : (avail.map User.id).Nodup :=
          ((hperm.map User.id).nodup_iff).mpr hnodup
        exact ((List.take_sublist num avail).map User.id).nodup havail

/-- Claim C10: generate_responses has the implicit precondition of a
nonempty user list.  With a nonempty survey list and no users it raises
(randint is called with the empty range 1..0); with at least one user
(pairwise-distinct ids, as the user generator produces, and questions the
mock answer synthesizer can answer, as the survey generator produces) it
returns a result with at least one response per survey — the output is the
concatenation, survey by survey in order, of nonempty blocks — and the
responses of each survey's block are attributed to pairwise distinct
users of that survey and carry that survey's id. -/
theorem generate_responses_users_spec (surveys : List Survey)
    (users : List User) (r : Rng)
    (hq : ∀ s ∈ surveys, ∀ q ∈ s.questions, question_answerable q = true)
    (hnodup : (users.map User.id).Nodup) :
    (users = [] → surveys ≠ [] →
      generate_responses surveys users r
        = Except.error "ValueError: empty range in randrange") ∧
    (users ≠ [] → ∃ out blocks,
      generate_responses surveys users r = Except.ok out ∧
      out = blocks.flatten ∧
      List.Forall₂ (fun (s : Survey) (block : List Response) =>
        block ≠ [] ∧ (block.map Response.user_id).Nodup ∧
        ∀ resp ∈ block, resp.survey_id = s.id) surveys blocks) := by
  constructor
  · intro hu hs
    subst hu
    rcases surveys with _ | ⟨s, rest⟩
    · exact absurd rfl hs
    · rfl
  · intro hu
    obtain ⟨blocks, rid2, r2, hgo, hfa⟩ :=
      generate_responses_go_spec users hu hnodup surveys hq 1 r
    exact ⟨blocks.flatten, blocks, by simp [generate_responses, hgo], rfl, hfa⟩

/-- Witness for generate_responses_users_spec: the empty-user run raises
on a concrete nonempty survey list, and the one-user run produces a
nonempty block for the one survey. -/
theorem generate_responses_users_spec_witness :
    generate_responses [sampleSurvey] [] zeroRng
      = Except.error "ValueError: empty range in randrange" ∧
    (∃ out blocks,
      generate_responses [sampleSurvey] [sampleUser] zeroRng = Except.ok out ∧
      out = blocks.flatten ∧
      List.Forall₂ (fun (s : Survey) (block : List Response) =>
        block ≠ [] ∧ (block.map Response.user_id).Nodup ∧
        ∀ resp ∈ block, resp.survey_id = s.id) [sampleSurvey] blocks) := by
  constructor
  · exact (generate_responses_users_spec [sampleSurvey] [] zeroRng
      (by decide) (by decide)).1 rfl (by decide)
  · exact (generate_responses_users_spec [sampleSurvey] [sampleUser] zeroRng
      (by decide) (by decide)).2 (by decide)

end Formbricks
